import Mathlib

/-!
Shallow embedding of the SPIF website behavior layer (`src/js/main.js` and
the unnamed variant source), and proofs about its controllers.

The repository contains two variants of the same script:
* `main.js` — scroll-threshold sticky header, increment-based counters,
  Swiper carousels, mobile nav without link-close handlers;
* the unnamed variant — sentinel sticky header, timestamp-based counters,
  native-scroll carousel, mobile nav with link-close handlers.

JavaScript numbers appearing in the animation math are modelled as exact
rationals (`ℚ`); `parseInt` producing `NaN` is modelled as `Option ℕ`
(`none` = NaN); DOM state is modelled by explicit records, and event
handlers by state-transition functions.
-/

namespace Spif

/-! ### String helpers: the regex replaces and `parseInt` used by the counters -/

/-- `text.replace(/[^0-9]/g, '')` — keep only ASCII digits. -/
def stripNonDigits (s : String) : String :=
  ⟨s.data.filter Char.isDigit⟩

/-- `text.replace(/[0-9,]/g, '')` — drop digits and commas, keeping the suffix. -/
def stripDigitsAndCommas (s : String) : String :=
  ⟨s.data.filter (fun c => ¬ (c.isDigit || c == ','))⟩

/-- `parseInt(s, 10)`: parse the longest prefix of decimal digits; an empty
digit prefix yields `NaN`, modelled as `none`. (At its call sites in the
script the argument is always the output of `stripNonDigits`.) -/
def jsParseInt (s : String) : Option ℕ :=
  let ds := s.data.takeWhile Char.isDigit
  if ds.isEmpty then none
  else some (ds.foldl (fun acc c => 10 * acc + (c.toNat - 48)) 0)

/-- Insert a comma before every third digit, working over the reversed digit
list (least-significant digit first); `i` counts digits already emitted. -/
def commasRev : List Char → ℕ → List Char
  | [], _ => []
  | d :: ds, i =>
    if i ≠ 0 ∧ i % 3 = 0 then ',' :: d :: commasRev ds (i + 1)
    else d :: commasRev ds (i + 1)

/-- `n.toLocaleString()` for a nonnegative integer, in a comma-grouping
locale (en-style thousands separators). -/
def groupDigits (n : ℕ) : String :=
  ⟨(commasRev (toString n).data.reverse 0).reverse⟩

/-- `toLocaleString` on a possibly negative integer (`Math.floor` can in
principle return a negative value). -/
def groupDigitsZ (i : ℤ) : String :=
  if i < 0 then "-" ++ groupDigits i.natAbs else groupDigits i.toNat

/-- `x.toLocaleString()` where `x` may be `NaN` (modelled as `none`). -/
def jsToLocaleString : Option ℤ → String
  | none => "NaN"
  | some i => groupDigitsZ i

/-! ### Theme controller (`initThemeToggle`, identical in both variants) -/

/-- Document-level theme state: the root `data-theme` attribute and the
`localStorage` entry under key `"theme"`. `none` models an absent
attribute / absent storage entry. -/
structure ThemeState where
  dataTheme : Option String
  stored : Option String
deriving DecidableEq, Repr

/-- JavaScript truthiness of `localStorage.getItem` results: `null` and the
empty string are falsy, every other string is truthy. -/
def jsTruthyStr : Option String → Bool
  | none => false
  | some s => s ≠ ""

/-- `applyTheme(theme)`: set the `data-theme` attribute and persist the value. -/
def applyTheme (theme : String) (st : ThemeState) : ThemeState :=
  { st with dataTheme := some theme, stored := some theme }

/-- `storedTheme ? storedTheme : (systemPrefersDark ? 'dark' : 'light')`. -/
def initialTheme (storedTheme : Option String) (systemPrefersDark : Bool) : String :=
  if jsTruthyStr storedTheme then storedTheme.getD ""
  else if systemPrefersDark then "dark" else "light"

/-- `initThemeToggle`: if the toggle button is absent, return; otherwise
resolve the initial theme from storage and the system preference, and
apply it. -/
def initThemeToggle (togglePresent systemPrefersDark : Bool) (st : ThemeState) :
    ThemeState :=
  if togglePresent then applyTheme (initialTheme st.stored systemPrefersDark) st
  else st

/-- The toggle button's click handler: read the current `data-theme`
attribute, flip `'dark'` to `'light'` and anything else to `'dark'`, apply. -/
def clickThemeToggle (st : ThemeState) : ThemeState :=
  let currentTheme := st.dataTheme
  let newTheme := if currentTheme = some "dark" then "light" else "dark"
  applyTheme newTheme st

/-! ### Sticky header, threshold strategy (`initStickyHeader` in `main.js`) -/

/-- `const stickyPoint = 10`. -/
def stickyPoint : ℕ := 10

/-- The scroll handler's effect on the header's `is-sticky` class:
`classList.add` when `window.scrollY > stickyPoint`, else `classList.remove`.
The result does not depend on the previous class state. -/
def stickyAfterScroll (scrollY : ℕ) : Bool :=
  if scrollY > stickyPoint then true else false

/-! ### Mobile navigation (`initMobileNav`, both variants)

State of the page relevant to the mobile menu: whether the open control and
the desktop navigation exist, how many `#page-mobile-main-menu` overlay
elements are in the document, whether the overlay's `<a>` links carry the
close handler (bound in the unnamed variant only), and whether `<body>`
carries the `mobile-menu-is-open` class. -/

structure NavState where
  menuTogglePresent : Bool
  desktopNavPresent : Bool
  overlayCount : ℕ
  linkCloseBound : Bool
  bodyMenuOpen : Bool
deriving DecidableEq, Repr

/-- `initMobileNav` as in `main.js`: if the open control is absent, return;
otherwise, if no `#page-mobile-main-menu` element exists, create one (with
cloned desktop-nav content and a close button) and append it.  No handlers
are bound on the overlay's links in this variant.  The click-to-toggle
handler on the open control is bound in either case. -/
def initMobileNav (st : NavState) : NavState :=
  if st.menuTogglePresent then
    if st.overlayCount = 0 then { st with overlayCount := 1 } else st
  else st

/-- `initMobileNav` as in the unnamed variant: identical, except that while
building the overlay it also binds a click handler on every `<a>` inside the
overlay that removes the body's open class. -/
def initMobileNavLinkClose (st : NavState) : NavState :=
  if st.menuTogglePresent then
    if st.overlayCount = 0 then
      { st with overlayCount := 1, linkCloseBound := true }
    else st
  else st

/-- The open control's click handler:
`document.body.classList.toggle('mobile-menu-is-open')`. -/
def clickMenuToggle (st : NavState) : NavState :=
  { st with bodyMenuOpen := !st.bodyMenuOpen }

/-- The close button's click handler:
`document.body.classList.remove('mobile-menu-is-open')`. -/
def clickCloseButton (st : NavState) : NavState :=
  { st with bodyMenuOpen := false }

/-- Clicking a navigation link inside the overlay.  In the unnamed variant a
handler removing the body's open class was bound on every link
(`linkCloseBound`); in `main.js` no handler is bound, so the click leaves the
class state unchanged. -/
def clickOverlayLink (st : NavState) : NavState :=
  if st.linkCloseBound then { st with bodyMenuOpen := false } else st

/-- A user interaction with the mobile menu after initialization. -/
inductive NavEvent
  | toggle
  | closeBtn
  | link
deriving DecidableEq, Repr

def navStep (st : NavState) : NavEvent → NavState
  | .toggle => clickMenuToggle st
  | .closeBtn => clickCloseButton st
  | .link => clickOverlayLink st

def navRun (st : NavState) (es : List NavEvent) : NavState :=
  es.foldl navStep st

/-! ### One-shot intersection observers
(`initScrollAnimations` and `initCounters`, identical observation logic)

Both callbacks run, for each delivered entry with `isIntersecting`, a
processing action on the target (`classList.add('is-animated')`, resp.
starting the count-up) followed by `observer.unobserve(entry.target)`.  The
host delivers notifications only for targets currently under observation.
Targets are modelled as naturals; `processed` records one entry per
processing run, so `processed.count t` is the number of times `t`'s
animation ran. -/

structure ObserverState where
  observed : List ℕ
  processed : List ℕ
deriving DecidableEq, Repr

/-- `observer.observe` over all selected targets, starting with nothing
processed. -/
def initObserver (targets : List ℕ) : ObserverState :=
  { observed := targets, processed := [] }

/-- Delivery of one intersection notification for target `t`: the host
notifies only observed targets; the callback processes the target when
`isIntersecting` and then unobserves it. -/
def observerNotify (st : ObserverState) (t : ℕ) (isIntersecting : Bool) :
    ObserverState :=
  if isIntersecting ∧ t ∈ st.observed then
    { observed := st.observed.erase t, processed := t :: st.processed }
  else st

def observerRun (st : ObserverState) (events : List (ℕ × Bool)) : ObserverState :=
  events.foldl (fun s e => observerNotify s e.1 e.2) st

/-! ### Counter animation (`initCounters`: `updateCount` in `main.js`,
`step` in the unnamed variant)

Both variants parse the element's text into a numeric target
(`parseInt(text.replace(/[^0-9]/g, ''), 10)`, `NaN` modelled as `none`) and
a suffix (`text.replace(/[0-9,]/g, '')`).  A frame callback renders a text
and either schedules another animation frame or stops. -/

/-- The element text at the end of one animation frame, and whether
`requestAnimationFrame` was called again. -/
structure FrameResult where
  text : String
  scheduleNext : Bool
deriving DecidableEq, Repr

/-- `parseInt(targetText.replace(/[^0-9]/g, ''), 10)`. -/
def parseCounterTarget (text : String) : Option ℕ :=
  jsParseInt (stripNonDigits text)

/-- `targetText.replace(/[0-9,]/g, '')` (the `|| ''` of the unnamed variant
never fires, since `replace` always returns a string). -/
def counterSuffix (text : String) : String :=
  stripDigitsAndCommas text

/-- `const duration = 2000`. -/
def counterDuration : ℚ := 2000

/-- In the unnamed variant the intersection callback immediately resets the
element text to `'0'` (`counter.innerText = '0'`) before scheduling the
first animation frame, whatever the original text was. -/
def counterIntersectText (_text : String) : String := "0"

/-- `Math.min((timestamp - startTime) / duration, 1)`. -/
def counterProgress (startTime t : ℚ) : ℚ :=
  min ((t - startTime) / counterDuration) 1

/-- `step(timestamp)` of the unnamed variant: compute the clamped progress,
render `Math.floor(progress * target).toLocaleString()` and schedule another
frame while `progress < 1`; at `progress = 1` render the exact target with
grouping plus the suffix and stop.  A `NaN` target (`none`) propagates
through `progress * target` and `Math.floor`, rendering `"NaN"`. -/
def counterStep (target : Option ℕ) (suffix : String) (startTime t : ℚ) :
    FrameResult :=
  let progress := counterProgress startTime t
  if progress < 1 then
    { text := jsToLocaleString (target.map fun n => ⌊progress * (n : ℚ)⌋)
      scheduleNext := true }
  else
    { text := jsToLocaleString (target.map fun n => (n : ℤ)) ++ suffix
      scheduleNext := false }

/-- The integer rendered by the unnamed variant's frame at time `t`
(`Math.floor(progress * target)`), used to state monotonicity. -/
def counterStepValue (target : ℕ) (startTime t : ℚ) : ℤ :=
  ⌊counterProgress startTime t * (target : ℚ)⌋

/-- `const increment = target / (duration / 16)` in `main.js`
(= `target / 125`). -/
def counterIncrement (target : ℚ) : ℚ :=
  target / (counterDuration / 16)

/-- `updateCount()` of `main.js`: add the per-frame increment to the
accumulator; while `current < target` render `Math.ceil(current)` with
grouping and schedule another frame, otherwise render the exact target with
grouping plus the suffix and stop.  With a `NaN` target the accumulator
becomes `NaN`, `NaN < NaN` is false, and `NaN.toLocaleString() + suffix` is
rendered with no further frame. -/
def updateCount (target : Option ℕ) (suffix : String) (current : Option ℚ) :
    Option ℚ × FrameResult :=
  match target, current with
  | some tg, some cur =>
    let c := cur + counterIncrement tg
    (some c,
      if c < (tg : ℚ) then
        { text := jsToLocaleString (some ⌈c⌉), scheduleNext := true }
      else
        { text := jsToLocaleString (some (tg : ℤ)) ++ suffix
          scheduleNext := false })
  | _, _ => (none, { text := "NaN" ++ suffix, scheduleNext := false })

/-- The accumulator after `k` frames of `main.js`'s `updateCount`, starting
from `let current = 0`. -/
def updateIter (target : Option ℕ) (suffix : String) : ℕ → Option ℚ
  | 0 => some 0
  | k + 1 => (updateCount target suffix (updateIter target suffix k)).1

/-- Closed form of the accumulator: `k` increments on top of 0. -/
def updateCurrentAfter (target : ℕ) (k : ℕ) : ℚ :=
  k * counterIncrement target

/-! ### Element-guard models of the remaining controllers (for the
missing-element no-op property) -/

/-- Sticky-header state for the threshold variant: the `is-sticky` class and
the number of registered scroll listeners. -/
structure StickyState where
  sticky : Bool
  scrollListeners : ℕ
deriving DecidableEq, Repr

/-- `initStickyHeader` of `main.js`: if `#page-header-inner` is absent,
return; otherwise register the scroll handler. -/
def initStickyHeader (headerPresent : Bool) (st : StickyState) : StickyState :=
  if headerPresent then { st with scrollListeners := st.scrollListeners + 1 }
  else st

/-- Sticky-header state for the sentinel variant: the `is-sticky` class and
whether the sentinel is under intersection observation. -/
structure StickyObsState where
  sticky : Bool
  observingSentinel : Bool
deriving DecidableEq, Repr

/-- `initStickyHeader` of the unnamed variant: if the header or the sentinel
is absent, return; otherwise observe the sentinel. -/
def initStickyHeaderSentinel (headerPresent sentinelPresent : Bool)
    (st : StickyObsState) : StickyObsState :=
  if headerPresent ∧ sentinelPresent then { st with observingSentinel := true }
  else st

/-- `initScrollAnimations`: with no `.scroll-animate` elements, return
without creating an observer; otherwise observe them all. -/
def initScrollAnimations (targets : List ℕ) : Option ObserverState :=
  if targets.length = 0 then none else some (initObserver targets)

/-- `initCounters`: with no `.impact-card__number` elements, return without
creating an observer; otherwise observe them all. -/
def initCounters (targets : List ℕ) : Option ObserverState :=
  if targets.length = 0 then none else some (initObserver targets)

/-- Carousel state for the unnamed variant: the track's scroll position and
the listeners bound on the next/previous controls. -/
structure CarouselState where
  scrollLeft : ℚ
  nextListeners : ℕ
  prevListeners : ℕ
deriving DecidableEq, Repr

/-- `initTestimonialCarousel` of the unnamed variant: if the track or either
control is absent, return; otherwise bind a click handler on each control. -/
def initTestimonialCarousel (trackPresent nextPresent prevPresent : Bool)
    (st : CarouselState) : CarouselState :=
  if trackPresent ∧ nextPresent ∧ prevPresent then
    { st with nextListeners := st.nextListeners + 1
              prevListeners := st.prevListeners + 1 }
  else st

end Spif

namespace Spif

/-! ## C1 — initial theme resolution -/

/-- C1: on theme-controller initialization, with no stored preference the
system dark preference selects `dark`, otherwise `light`; a stored (truthy)
preference always wins over the system preference. -/
theorem initialTheme_resolution :
    (∀ st : ThemeState, st.stored = none →
      (initThemeToggle true true st).dataTheme = some "dark") ∧
    (∀ st : ThemeState, st.stored = none →
      (initThemeToggle true false st).dataTheme = some "light") ∧
    (∀ (st : ThemeState) (t : String) (sys : Bool), st.stored = some t → t ≠ "" →
      (initThemeToggle true sys st).dataTheme = some t) := by
  refine ⟨fun st h => ?_, fun st h => ?_, fun st t sys h ht => ?_⟩ <;>
    simp [initThemeToggle, applyTheme, initialTheme, jsTruthyStr, h]
  intro h'
  exact absurd h' ht

/-- Witness for C1 at concrete states: empty storage with and without system
dark preference, and a stored `"dark"` under a light system preference. -/
theorem initialTheme_resolution_witness :
    (initThemeToggle true true ⟨none, none⟩).dataTheme = some "dark" ∧
    (initThemeToggle true false ⟨none, none⟩).dataTheme = some "light" ∧
    (initThemeToggle true false ⟨none, some "dark"⟩).dataTheme = some "dark" := by
  refine ⟨initialTheme_resolution.1 ⟨none, none⟩ rfl,
    initialTheme_resolution.2.1 ⟨none, none⟩ rfl,
    initialTheme_resolution.2.2 ⟨none, some "dark"⟩ "dark" false rfl (by decide)⟩

/-! ## C2 — toggle involution and storage/attribute agreement -/

/-- C2: for a currently applied theme in {`light`, `dark`}, clicking the
toggle twice restores the `data-theme` attribute; immediately after any
toggle click, and after initialization (when the toggle button is present),
the persisted store value equals the applied attribute. -/
theorem themeToggle_involution_and_persistence :
    (∀ st : ThemeState,
      st.dataTheme = some "light" ∨ st.dataTheme = some "dark" →
      (clickThemeToggle (clickThemeToggle st)).dataTheme = st.dataTheme) ∧
    (∀ st : ThemeState,
      (clickThemeToggle st).stored = (clickThemeToggle st).dataTheme) ∧
    (∀ (sys : Bool) (st : ThemeState),
      (initThemeToggle true sys st).stored = (initThemeToggle true sys st).dataTheme) := by
  refine ⟨fun st h => ?_, fun st => ?_, fun sys st => ?_⟩
  · rcases h with h | h <;> simp [clickThemeToggle, applyTheme, h]
  · simp [clickThemeToggle, applyTheme]
  · simp [initThemeToggle, applyTheme]

/-- Witness for C2: double-toggle from an applied `"light"` theme restores
it, and storage agrees with the attribute after a toggle and after init. -/
theorem themeToggle_involution_and_persistence_witness :
    (clickThemeToggle (clickThemeToggle ⟨some "light", some "light"⟩)).dataTheme
      = some "light" ∧
    (clickThemeToggle ⟨some "light", some "light"⟩).stored
      = (clickThemeToggle ⟨some "light", some "light"⟩).dataTheme ∧
    (initThemeToggle true true ⟨none, none⟩).stored
      = (initThemeToggle true true ⟨none, none⟩).dataTheme := by
  refine ⟨themeToggle_involution_and_persistence.1 ⟨some "light", some "light"⟩
      (Or.inl rfl),
    themeToggle_involution_and_persistence.2.1 ⟨some "light", some "light"⟩,
    themeToggle_involution_and_persistence.2.2 true ⟨none, none⟩⟩

/-! ## C3 — sticky header threshold

The claim says the sticky class is present at every offset **at or above**
the threshold of 10 px, but the handler tests `window.scrollY > stickyPoint`
strictly, so at offset exactly 10 the class is removed.  The claim is
refuted at offset 10 and holds in the amended form with a strict threshold. -/

/-- C3 counterexample: offset 10 is at the threshold, yet after handling the
scroll event the header does not carry the sticky class. -/
theorem stickyAfterScroll_at_threshold :
    stickyPoint ≤ 10 ∧ stickyAfterScroll 10 = false := by
  decide

/-- C3 (amended): after handling a scroll event at any offset at most the
threshold (10 px) the header does not carry the sticky class; at any offset
strictly above the threshold it does. -/
theorem stickyAfterScroll_strict_threshold (y : ℕ) :
    (y ≤ stickyPoint → stickyAfterScroll y = false) ∧
    (stickyPoint < y → stickyAfterScroll y = true) := by
  constructor
  · intro h
    simp [stickyAfterScroll, Nat.not_lt.mpr h]
  · intro h
    simp [stickyAfterScroll, h]

/-- Witness for the amended C3 at offsets 10 and 11. -/
theorem stickyAfterScroll_strict_threshold_witness :
    stickyAfterScroll 10 = false ∧ stickyAfterScroll 11 = true :=
  ⟨(stickyAfterScroll_strict_threshold 10).1 (by decide),
    (stickyAfterScroll_strict_threshold 11).2 (by decide)⟩

/-! ## C5 / C6 — mobile menu construction and closing -/

/-- No user interaction with the mobile menu changes the number of overlay
elements in the document. -/
lemma navStep_overlayCount (st : NavState) (e : NavEvent) :
    (navStep st e).overlayCount = st.overlayCount := by
  cases e <;> simp [navStep, clickMenuToggle, clickCloseButton, clickOverlayLink]
  split <;> rfl

lemma navRun_overlayCount (es : List NavEvent) (st : NavState) :
    (navRun st es).overlayCount = st.overlayCount := by
  induction es generalizing st with
  | nil => rfl
  | cons e es ih => rw [navRun, List.foldl_cons, ← navRun, ih, navStep_overlayCount]

/-- User interactions never bind or unbind the overlay's link handlers. -/
lemma navStep_linkCloseBound (st : NavState) (e : NavEvent) :
    (navStep st e).linkCloseBound = st.linkCloseBound := by
  cases e <;> simp [navStep, clickMenuToggle, clickCloseButton, clickOverlayLink]
  split <;> rfl

lemma navRun_linkCloseBound (es : List NavEvent) (st : NavState) :
    (navRun st es).linkCloseBound = st.linkCloseBound := by
  induction es generalizing st with
  | nil => rfl
  | cons e es ih => rw [navRun, List.foldl_cons, ← navRun, ih, navStep_linkCloseBound]

/-- C5 counterexample: starting from a page with the open control present
and no overlay, the overlay already exists right after `initMobileNav` —
before any open request — and the first open-control click creates nothing:
it only flips the visibility class.  So construction is not lazy on the
first open request, as the claim states. -/
theorem mobileMenu_not_lazy :
    (initMobileNav ⟨true, true, 0, false, false⟩).overlayCount = 1 ∧
    (clickMenuToggle (initMobileNav ⟨true, true, 0, false, false⟩)).overlayCount
      = (initMobileNav ⟨true, true, 0, false, false⟩).overlayCount ∧
    (clickMenuToggle (initMobileNav ⟨true, true, 0, false, false⟩)).bodyMenuOpen
      = true := by
  decide

/-- C5 (amended): the overlay subtree is constructed at most once per page
load, but eagerly during initialization (guarded by an existence check)
rather than on the first open request; initialization is idempotent on the
overlay count, and every open-control click only flips the open/closed
visibility state, never creating or destroying an overlay.  This holds for
both script variants. -/
theorem mobileMenu_singleton (st : NavState) (es : List NavEvent)
    (h : st.overlayCount = 0) :
    (initMobileNav st).overlayCount ≤ 1 ∧
    (initMobileNavLinkClose st).overlayCount ≤ 1 ∧
    (initMobileNav (initMobileNav st)).overlayCount
      = (initMobileNav st).overlayCount ∧
    (navRun (initMobileNav st) es).overlayCount = (initMobileNav st).overlayCount ∧
    (navRun (initMobileNavLinkClose st) es).overlayCount
      = (initMobileNavLinkClose st).overlayCount ∧
    (∀ s : NavState, (clickMenuToggle s).overlayCount = s.overlayCount ∧
      (clickMenuToggle s).bodyMenuOpen = !s.bodyMenuOpen) := by
  refine ⟨?_, ?_, ?_, navRun_overlayCount es _, navRun_overlayCount es _,
    fun s => ⟨rfl, rfl⟩⟩
  · by_cases ht : st.menuTogglePresent <;> simp [initMobileNav, ht, h]
  · by_cases ht : st.menuTogglePresent <;> simp [initMobileNavLinkClose, ht, h]
  · by_cases ht : st.menuTogglePresent <;> simp [initMobileNav, ht, h]

/-- Witness for the amended C5: from a fresh page, after initialization and
two open-control clicks there is still exactly one overlay. -/
theorem mobileMenu_singleton_witness :
    (initMobileNav ⟨true, true, 0, false, false⟩).overlayCount ≤ 1 ∧
    (navRun (initMobileNav ⟨true, true, 0, false, false⟩)
      [NavEvent.toggle, NavEvent.toggle]).overlayCount
      = (initMobileNav ⟨true, true, 0, false, false⟩).overlayCount :=
  ⟨(mobileMenu_singleton ⟨true, true, 0, false, false⟩
      [NavEvent.toggle, NavEvent.toggle] rfl).1,
    (mobileMenu_singleton ⟨true, true, 0, false, false⟩
      [NavEvent.toggle, NavEvent.toggle] rfl).2.2.2.1⟩

/-- C6 counterexample: in the `main.js` variant no handler is bound on the
overlay's links, so after opening the menu a click on a navigation link
leaves the body's `mobile-menu-is-open` class in place. -/
theorem overlayLink_click_no_close :
    (clickOverlayLink (clickMenuToggle
      (initMobileNav ⟨true, true, 0, false, false⟩))).bodyMenuOpen = true := by
  decide

/-- C6 (amended): in the unnamed variant — which binds a close handler on
every overlay link — clicking any navigation link inside the overlay removes
the body's `mobile-menu-is-open` class, after any interaction history; in
the `main.js` variant the links carry no handler and the class is unchanged
by a link click. -/
theorem overlayLink_click_closes (st : NavState) (es : List NavEvent)
    (ht : st.menuTogglePresent = true) (h0 : st.overlayCount = 0) :
    (clickOverlayLink (navRun (initMobileNavLinkClose st) es)).bodyMenuOpen
      = false ∧
    (∀ s : NavState, s.linkCloseBound = false →
      (clickOverlayLink s).bodyMenuOpen = s.bodyMenuOpen) := by
  constructor
  · have hb : (navRun (initMobileNavLinkClose st) es).linkCloseBound = true := by
      rw [navRun_linkCloseBound]
      simp [initMobileNavLinkClose, ht, h0]
    simp [clickOverlayLink, hb]
  · intro s hs
    simp [clickOverlayLink, hs]

/-- Witness for the amended C6: open the menu, click a link, the class is
gone (unnamed variant); with no handler bound a link click is inert. -/
theorem overlayLink_click_closes_witness :
    (clickOverlayLink (navRun
      (initMobileNavLinkClose ⟨true, true, 0, false, false⟩)
      [NavEvent.toggle])).bodyMenuOpen = false ∧
    (clickOverlayLink ⟨true, true, 1, false, true⟩).bodyMenuOpen
      = (⟨true, true, 1, false, true⟩ : NavState).bodyMenuOpen :=
  ⟨(overlayLink_click_closes ⟨true, true, 0, false, false⟩ [NavEvent.toggle]
      rfl rfl).1,
    (overlayLink_click_closes ⟨true, true, 0, false, false⟩ [NavEvent.toggle]
      rfl rfl).2 ⟨true, true, 1, false, true⟩ rfl⟩

/-! ## C7 — one-shot observation -/

/-- Invariant of the one-shot observer: the observed list has no duplicates,
an element still under observation has never been processed, and no element
is ever processed more than once. -/
def ObsInv (st : ObserverState) : Prop :=
  st.observed.Nodup ∧
  ∀ t : ℕ, (t ∈ st.observed → st.processed.count t = 0) ∧ st.processed.count t ≤ 1

lemma obsInv_notify {st : ObserverState} (h : ObsInv st) (t : ℕ) (b : Bool) :
    ObsInv (observerNotify st t b) := by
  obtain ⟨hnd, hcnt⟩ := h
  unfold observerNotify
  split
  case isTrue hc =>
    refine ⟨hnd.erase t, fun x => ⟨fun hx => ?_, ?_⟩⟩
    · have hx' := (hnd.mem_erase_iff.mp hx)
      simp [List.count_cons, hx'.1, (hcnt x).1 hx'.2]
    · by_cases hxt : x = t
      · subst hxt
        simp [List.count_cons, (hcnt x).1 hc.2]
      · simpa [List.count_cons, hxt] using (hcnt x).2
  case isFalse => exact ⟨hnd, hcnt⟩

lemma obsInv_run {st : ObserverState} (h : ObsInv st)
    (events : List (ℕ × Bool)) : ObsInv (observerRun st events) := by
  induction events generalizing st with
  | nil => exact h
  | cons e es ih =>
    rw [observerRun, List.foldl_cons, ← observerRun]
    exact ih (obsInv_notify h e.1 e.2)

/-- C7: with distinct observation targets, after any sequence of
intersection notifications every target has been processed (its animation
run) at most once, and a triggering intersection on a still-observed target
unsubscribes it, so a second notification can never reprocess it.  The
observation logic is identical in `initScrollAnimations` and
`initCounters`, so this covers both the reveal and the counter observers. -/
theorem observer_oneShot (targets : List ℕ) (events : List (ℕ × Bool)) (t : ℕ)
    (h : targets.Nodup) :
    (observerRun (initObserver targets) events).processed.count t ≤ 1 ∧
    (∀ st : ObserverState, st.observed.Nodup → t ∈ st.observed →
      t ∉ (observerNotify st t true).observed) := by
  constructor
  · have hinv : ObsInv (initObserver targets) :=
      ⟨h, fun x => ⟨fun _ => rfl, by simp [initObserver]⟩⟩
    exact ((obsInv_run hinv events).2 t).2
  · intro st hnd hmem
    simp only [observerNotify, hmem, and_true, true_and, if_pos trivial]
    simp [hnd.mem_erase_iff]

/-- Witness for C7: two triggering notifications for target 5 in a
two-target observer process it exactly once, and the first one
unsubscribes it. -/
theorem observer_oneShot_witness :
    (observerRun (initObserver [5, 7])
      [(5, true), (5, true), (7, false)]).processed.count 5 ≤ 1 ∧
    5 ∉ (observerNotify (initObserver [5, 7]) 5 true).observed :=
  ⟨(observer_oneShot [5, 7] [(5, true), (5, true), (7, false)] 5 (by decide)).1,
    (observer_oneShot [5, 7] [(5, true), (5, true), (7, false)] 5
      (by decide)).2 (initObserver [5, 7]) (by decide) (by decide)⟩

/-! ## C4 / C10 — counter animation -/

/-- The `main.js` accumulator after `k` frames equals `k` increments:
both branches of `updateCount` return the updated accumulator. -/
lemma updateIter_closed (tg : ℕ) (suffix : String) (k : ℕ) :
    updateIter (some tg) suffix k = some (updateCurrentAfter tg k) := by
  induction k with
  | zero => simp [updateIter, updateCurrentAfter]
  | succ k ih =>
    rw [updateIter, ih]
    simp only [updateCount, updateCurrentAfter]
    push_cast
    ring_nf

/-- C4: for display text `"1,234+"` the parsed target is 1234 and the suffix
`"+"`; in the timestamp variant every frame at elapsed time ≥ 2000 ms
renders exactly `"1,234+"` and stops, every earlier frame renders a
digit-grouped integer strictly below 1234 and the rendered value is
monotone in time; in the increment variant frames 1–124 render a
digit-grouped integer strictly below 1234, the rendered values are monotone
across frames, and frame 125 renders exactly `"1,234+"` and stops. -/
theorem counterAnimation_target1234 :
    parseCounterTarget "1,234+" = some 1234 ∧
    counterSuffix "1,234+" = "+" ∧
    (∀ t0 t : ℚ, 2000 ≤ t - t0 →
      counterStep (some 1234) "+" t0 t = ⟨"1,234+", false⟩) ∧
    (∀ t0 t : ℚ, t0 ≤ t → t - t0 < 2000 →
      ∃ n : ℕ, n < 1234 ∧
        counterStep (some 1234) "+" t0 t = ⟨groupDigits n, true⟩) ∧
    (∀ t0 t t' : ℚ, t ≤ t' →
      counterStepValue 1234 t0 t ≤ counterStepValue 1234 t0 t') ∧
    (∀ k : ℕ, 1 ≤ k → k ≤ 124 →
      ∃ n : ℕ, n < 1234 ∧
        (updateCount (some 1234) "+" (updateIter (some 1234) "+" (k - 1))).2
          = ⟨groupDigits n, true⟩) ∧
    (∀ k k' : ℕ, k ≤ k' →
      ⌈updateCurrentAfter 1234 k⌉ ≤ ⌈updateCurrentAfter 1234 k'⌉) ∧
    (updateCount (some 1234) "+" (updateIter (some 1234) "+" 124)).2
      = ⟨"1,234+", false⟩ := by
  refine ⟨by decide, by decide, ?_, ?_, ?_, ?_, ?_, ?_⟩
  · intro t0 t h
    have h1 : (1 : ℚ) ≤ (t - t0) / counterDuration := by
      rw [counterDuration, le_div_iff₀ (by norm_num)]
      linarith
    unfold counterStep counterProgress
    rw [min_eq_right h1, if_neg (lt_irrefl (1 : ℚ))]
    decide
  · intro t0 t h0 h2
    have hlt : (t - t0) / counterDuration < 1 := by
      rw [counterDuration, div_lt_one (by norm_num)]
      linarith
    have hp1 : counterProgress t0 t < 1 := by
      rw [counterProgress]
      exact min_lt_iff.mpr (Or.inl hlt)
    have hp0 : 0 ≤ counterProgress t0 t := by
      rw [counterProgress]
      exact le_min (div_nonneg (by linarith) (by norm_num [counterDuration]))
        one_pos.le
    have hfnn : 0 ≤ ⌊counterProgress t0 t * (1234 : ℚ)⌋ :=
      Int.floor_nonneg.mpr (mul_nonneg hp0 (by norm_num))
    have hflt : ⌊counterProgress t0 t * (1234 : ℚ)⌋ < (1234 : ℤ) := by
      apply Int.floor_lt.mpr
      push_cast
      nlinarith
    refine ⟨(⌊counterProgress t0 t * (1234 : ℚ)⌋).toNat,
      (Int.toNat_lt hfnn).mpr (by exact_mod_cast hflt), ?_⟩
    simp only [counterStep, if_pos hp1, Option.map_some, Nat.cast_ofNat]
    simp [jsToLocaleString, groupDigitsZ, not_lt.mpr hfnn]
  · intro t0 t t' h
    apply Int.floor_le_floor
    apply mul_le_mul_of_nonneg_right _ (by norm_num : (0 : ℚ) ≤ 1234)
    unfold counterProgress counterDuration
    gcongr
  · intro k h1 h2
    rw [updateIter_closed]
    have hacc : updateCurrentAfter 1234 (k - 1) + counterIncrement ((1234 : ℕ) : ℚ)
        = (k : ℚ) * (1234 / 125) := by
      rw [updateCurrentAfter, counterIncrement, counterDuration, Nat.cast_sub h1]
      push_cast
      ring
    have hk : (k : ℚ) ≤ 124 := by exact_mod_cast h2
    have hle : (k : ℚ) * (1234 / 125) ≤ 153016 / 125 := by nlinarith
    have hlt : (k : ℚ) * (1234 / 125) < ((1234 : ℕ) : ℚ) := by
      push_cast
      nlinarith
    have hcnn : 0 ≤ ⌈(k : ℚ) * (1234 / 125)⌉ := Int.ceil_nonneg (by positivity)
    have hceil : ⌈(k : ℚ) * (1234 / 125)⌉ ≤ 1225 := by
      calc ⌈(k : ℚ) * (1234 / 125)⌉
          ≤ ⌈(153016 : ℚ) / 125⌉ := Int.ceil_le_ceil hle
        _ = 1225 := by norm_num [Int.ceil_eq_iff]
    refine ⟨(⌈(k : ℚ) * (1234 / 125)⌉).toNat, ?_, ?_⟩
    · have hfin : ⌈(k : ℚ) * (1234 / 125)⌉ < (1234 : ℤ) :=
        lt_of_le_of_lt hceil (by norm_num)
      exact (Int.toNat_lt hcnn).mpr hfin
    · simp only [updateCount, hacc, if_pos hlt]
      simp [jsToLocaleString, groupDigitsZ, not_lt.mpr hcnn]
  · intro k k' h
    apply Int.ceil_le_ceil
    unfold updateCurrentAfter
    apply mul_le_mul_of_nonneg_right (by exact_mod_cast h)
    norm_num [counterIncrement, counterDuration]
  · rw [updateIter_closed]
    have hacc : updateCurrentAfter 1234 124 + counterIncrement ((1234 : ℕ) : ℚ)
        = ((1234 : ℕ) : ℚ) := by
      rw [updateCurrentAfter, counterIncrement, counterDuration]
      push_cast
      ring
    simp only [updateCount, hacc, if_neg (lt_irrefl ((1234 : ℕ) : ℚ))]
    decide

/-- Witness for C4: concrete frames of both variants for the `"1,234+"`
counter — completion at 2000 ms, a scheduled intermediate frame at 1000 ms,
value monotonicity at 500 ms vs 1500 ms, and a scheduled 100th increment
frame. -/
theorem counterAnimation_target1234_witness :
    counterStep (some 1234) "+" 0 2000 = ⟨"1,234+", false⟩ ∧
    (counterStep (some 1234) "+" 0 1000).scheduleNext = true ∧
    counterStepValue 1234 0 500 ≤ counterStepValue 1234 0 1500 ∧
    (updateCount (some 1234) "+"
      (updateIter (some 1234) "+" (100 - 1))).2.scheduleNext = true := by
  refine ⟨counterAnimation_target1234.2.2.1 0 2000 (by norm_num), ?_,
    counterAnimation_target1234.2.2.2.2.1 0 500 1500 (by norm_num), ?_⟩
  · obtain ⟨n, -, heq⟩ :=
      counterAnimation_target1234.2.2.2.1 0 1000 (by norm_num) (by norm_num)
    rw [heq]
  · obtain ⟨n, -, heq⟩ :=
      counterAnimation_target1234.2.2.2.2.2.1 100 (by norm_num) (by norm_num)
    rw [heq]

/-- C10: both counter animations self-terminate.  In the timestamp variant,
any frame with elapsed time at least the 2000 ms duration renders the final
grouped target plus suffix and schedules no further frame; in the increment
variant, any frame whose updated accumulator reaches the target does the
same; and the accumulator reaches the target after 125 frames at the
latest, since 125 increments sum to the target exactly. -/
theorem counterAnimation_terminates :
    (∀ (tg : ℕ) (suffix : String) (t0 t : ℚ), 2000 ≤ t - t0 →
      counterStep (some tg) suffix t0 t
        = ⟨groupDigits tg ++ suffix, false⟩) ∧
    (∀ (tg : ℕ) (suffix : String) (cur : ℚ),
      (tg : ℚ) ≤ cur + counterIncrement ((tg : ℕ) : ℚ) →
      (updateCount (some tg) suffix (some cur)).2
        = ⟨groupDigits tg ++ suffix, false⟩) ∧
    (∀ tg : ℕ, updateCurrentAfter tg 125 = (tg : ℚ)) := by
  refine ⟨?_, ?_, ?_⟩
  · intro tg suffix t0 t h
    have h1 : (1 : ℚ) ≤ (t - t0) / counterDuration := by
      rw [counterDuration, le_div_iff₀ (by norm_num)]
      linarith
    unfold counterStep counterProgress
    rw [min_eq_right h1, if_neg (lt_irrefl (1 : ℚ))]
    simp [jsToLocaleString, groupDigitsZ, Int.toNat_natCast,
      not_lt.mpr (Int.natCast_nonneg tg)]
  · intro tg suffix cur h
    simp only [updateCount, if_neg (not_lt.mpr h)]
    simp [jsToLocaleString, groupDigitsZ, Int.toNat_natCast,
      not_lt.mpr (Int.natCast_nonneg tg)]
  · intro tg
    rw [updateCurrentAfter, counterIncrement, counterDuration]
    norm_num
    ring

/-- Witness for C10: a 42-target counter with suffix `"%"` stops — at
2500 ms in the timestamp variant, and on the frame that reaches 42 in the
increment variant; 125 increments sum to 42 exactly. -/
theorem counterAnimation_terminates_witness :
    counterStep (some 42) "%" 0 2500 = ⟨"42%", false⟩ ∧
    (updateCount (some 42) "%" (some 42)).2 = ⟨"42%", false⟩ ∧
    updateCurrentAfter 42 125 = (42 : ℚ) := by
  refine ⟨(counterAnimation_terminates.1 42 "%" 0 2500 (by norm_num)).trans
      (by decide),
    ((counterAnimation_terminates.2.1 42 "%" 42 (by
      norm_num [counterIncrement, counterDuration])).trans (by decide)),
    by exact_mod_cast counterAnimation_terminates.2.2 42⟩

/-! ## C9 — counter text with no digits -/

/-- C9: for the digit-free counter text `"N/A"`, parsing yields `NaN`
(`none`) and the suffix is the full text; yet the unnamed variant first
overwrites the element with `"0"`, a completed timestamp frame renders
`"NaNN/A"`, the first increment-variant frame renders `"NaNN/A"` with no
further frame — so the original text is not left untouched, contradicting
the claimed (and spec-recommended) nothing-to-animate behavior. -/
theorem counter_nan_overwrites_text :
    parseCounterTarget "N/A" = none ∧
    counterSuffix "N/A" = "N/A" ∧
    counterIntersectText "N/A" = "0" ∧
    counterStep none "N/A" 0 2000 = ⟨"NaNN/A", false⟩ ∧
    (updateCount none "N/A" (some 0)).2 = ⟨"NaNN/A", false⟩ ∧
    "NaNN/A" ≠ "N/A" ∧ "0" ≠ "N/A" := by
  refine ⟨by decide, by decide, rfl, ?_, by decide, by decide, by decide⟩
  have h1 : (1 : ℚ) ≤ ((2000 : ℚ) - 0) / counterDuration := by
    norm_num [counterDuration]
  unfold counterStep counterProgress
  rw [min_eq_right h1, if_neg (lt_irrefl (1 : ℚ))]
  decide

/-! ## C8 — missing elements are a silent no-op -/

/-- C8: every element-guarded controller initialization leaves the page
state unchanged when its expected DOM element(s) are absent — the sticky
header (both variants, either element missing), the theme toggle, the
mobile navigation (both variants), scroll animations and counters with an
empty target list (no observer is created), and the testimonial carousel
with any of its three elements missing.  All embeddings are total
functions, so no error can be raised. -/
theorem controllers_noop_when_elements_absent :
    (∀ st : StickyState, initStickyHeader false st = st) ∧
    (∀ (sentinelPresent : Bool) (st : StickyObsState),
      initStickyHeaderSentinel false sentinelPresent st = st) ∧
    (∀ (headerPresent : Bool) (st : StickyObsState),
      initStickyHeaderSentinel headerPresent false st = st) ∧
    (∀ (sys : Bool) (st : ThemeState), initThemeToggle false sys st = st) ∧
    (∀ st : NavState, st.menuTogglePresent = false →
      initMobileNav st = st ∧ initMobileNavLinkClose st = st) ∧
    initScrollAnimations [] = none ∧
    initCounters [] = none ∧
    (∀ (np pp : Bool) (st : CarouselState),
      initTestimonialCarousel false np pp st = st) ∧
    (∀ (tp pp : Bool) (st : CarouselState),
      initTestimonialCarousel tp false pp st = st) ∧
    (∀ (tp np : Bool) (st : CarouselState),
      initTestimonialCarousel tp np false st = st) := by
  refine ⟨fun st => rfl, fun sp st => rfl, fun hp st => ?_, fun sys st => rfl,
    fun st h => ⟨?_, ?_⟩, rfl, rfl, fun np pp st => rfl, fun tp pp st => ?_,
    fun tp np st => ?_⟩
  · simp [initStickyHeaderSentinel]
  · simp [initMobileNav, h]
  · simp [initMobileNavLinkClose, h]
  · simp [initTestimonialCarousel]
  · simp [initTestimonialCarousel]

/-- Witness for C8 at concrete absent-element states: a missing open
control leaves the mobile-nav state untouched in both variants, and a
missing sentinel leaves the sticky-header state untouched. -/
theorem controllers_noop_when_elements_absent_witness :
    initMobileNav ⟨false, true, 0, false, false⟩
      = (⟨false, true, 0, false, false⟩ : NavState) ∧
    initMobileNavLinkClose ⟨false, true, 0, false, false⟩
      = (⟨false, true, 0, false, false⟩ : NavState) ∧
    initStickyHeaderSentinel true false ⟨false, false⟩
      = (⟨false, false⟩ : StickyObsState) :=
  ⟨(controllers_noop_when_elements_absent.2.2.2.2.1
      ⟨false, true, 0, false, false⟩ rfl).1,
    (controllers_noop_when_elements_absent.2.2.2.2.1
      ⟨false, true, 0, false, false⟩ rfl).2,
    controllers_noop_when_elements_absent.2.2.1 true ⟨false, false⟩⟩

end Spif
